import Mathlib

/-!
Verification of the multi-tenant event-ingestion / async-processing core
(Shopify Remix app).  Shallow embedding of:

- the credential vault (`lib/crypto.server.ts`, modelled from the spec since
  the file is not among the sources),
- the encrypted session storage and the tenant (shop) registry operations of
  `shopify.server.ts` (`EncryptedPrismaSessionStorage.storeSession` /
  `loadSession`, the `afterAuth` hook's shop upsert, the `APP_UNINSTALLED`
  and `SHOP_REDACT` webhook callbacks — the latter under the
  `sessions_shop_fkey` ON DELETE RESTRICT constraint of the repository's
  init migration, staged inside `DEPLOY.md`),
- the dispatcher `accept` (`lib/webhooks.server.ts`, modelled from the spec
  since the file is not among the sources),
- the background worker (`scripts/worker.js`): the periodic queue health
  check and the graceful-shutdown state machine.

Machine integers / byte strings are modelled as `Nat` / `List Nat`;
timestamps as `Nat`; fallible operations return `Option` / `Except`.
-/

/-! ## Credential vault

Modelled from the spec: `lib/crypto.server.ts` (`encryptToken` /
`decryptToken`) is not among the sources; spec §4.2 prescribes a symmetric
authenticated cipher with a per-call nonce stored alongside the ciphertext,
whose `decrypt` fails on a malformed or tampered blob.  We embed a concrete
authenticated stream cipher over byte lists: the ciphertext is
`nonce :: tag :: xor-encrypted body`, and decryption recomputes and checks
the tag, failing (returning `none`) on any mismatch or malformed blob. -/

/-- Modelled from the spec: one keystream byte of the vault's stream cipher
(spec §4.2); derived from the process-wide key and the per-call nonce. -/
def keystream (key nonce i : Nat) : Nat :=
  (key + nonce * 7 + i * 13) % 256

/-- Modelled from the spec: xor a byte list against the keystream starting at
position `i`.  Applying it twice is the identity (xor involution). -/
def encBody (key nonce : Nat) : Nat → List Nat → List Nat
  | _, [] => []
  | i, b :: bs => (b ^^^ keystream key nonce i) :: encBody key nonce (i + 1) bs

/-- Modelled from the spec: the authentication tag over the plaintext,
keyed by the encryption key and the nonce (spec §4.2: authenticated mode). -/
def tagOf (key nonce : Nat) (pt : List Nat) : Nat :=
  pt.foldl (fun a b => (a * 31 + b + 1) % 65536)
    ((key * 131 + nonce * 17 + pt.length) % 65536)

/-- Modelled from the spec: `encryptToken` of `lib/crypto.server.ts`
(spec §4.2): authenticated encryption, nonce stored alongside ciphertext. -/
def encryptToken (key nonce : Nat) (pt : List Nat) : List Nat :=
  nonce :: tagOf key nonce pt :: encBody key nonce 0 pt

/-- Modelled from the spec: `decryptToken` of `lib/crypto.server.ts`
(spec §4.2): recovers the plaintext and verifies the authentication tag,
failing (`none`, the embedding of `DecryptionError`) on a malformed blob or
tag mismatch. -/
def decryptToken (key : Nat) : List Nat → Option (List Nat)
  | nonce :: tag :: body =>
      let pt := encBody key nonce 0 body
      if tagOf key nonce pt = tag then some pt else none
  | _ => none

theorem encBody_encBody (key nonce : Nat) :
    ∀ (i : Nat) (bs : List Nat), encBody key nonce i (encBody key nonce i bs) = bs := by
  intro i bs
  induction bs generalizing i with
  | nil => rfl
  | cons b bs ih =>
      simp [encBody, ih, Nat.xor_cancel_right]

theorem decryptToken_encryptToken (key nonce : Nat) (pt : List Nat) :
    decryptToken key (encryptToken key nonce pt) = some pt := by
  simp [decryptToken, encryptToken, encBody_encBody]

theorem decryptToken_sound (key : Nat) (c pt : List Nat)
    (h : decryptToken key c = some pt) :
    ∃ nonce, c = encryptToken key nonce pt := by
  match c with
  | [] => simp [decryptToken] at h
  | [x] => simp [decryptToken] at h
  | nonce :: tag :: body =>
      refine ⟨nonce, ?_⟩
      simp only [decryptToken] at h
      split at h
      · next htag =>
          obtain rfl : encBody key nonce 0 body = pt := by
            simpa using h
          simp [encryptToken, htag, encBody_encBody]
      · exact absurd h (by simp)

/-! ## Tenant registry (table `shop`, `shopify.server.ts`)

A shop row carries the fields the source touches through
`prisma.shop.upsert` / `update` / `delete`.  Numeric profile fields
(`latitude`, `longitude`) are only ever copied, never computed on, so they
are modelled abstractly as optional strings.  The database is a finite map
from the unique tenant key (`shop` domain) to its row. -/

structure ShopRow where
  shop : String
  name : Option String := none
  email : Option String := none
  domain : Option String := none
  province : Option String := none
  country : Option String := none
  address1 : Option String := none
  zip : Option String := none
  city : Option String := none
  phone : Option String := none
  latitude : Option String := none
  longitude : Option String := none
  primaryLocale : Option String := none
  address2 : Option String := none
  planName : Option String := none
  accessTokenEncrypted : Option (List Nat) := none
  isActive : Bool := false
  installedAt : Option Nat := none
  uninstalledAt : Option Nat := none
deriving Repr, DecidableEq

/-- The profile fields the `afterAuth` hook copies from the platform's
`Shop.all` response into the tenant row. -/
structure ShopProfile where
  name : Option String := none
  email : Option String := none
  domain : Option String := none
  province : Option String := none
  country : Option String := none
  address1 : Option String := none
  zip : Option String := none
  city : Option String := none
  phone : Option String := none
  latitude : Option String := none
  longitude : Option String := none
  primaryLocale : Option String := none
  address2 : Option String := none
  planName : Option String := none
deriving Repr, DecidableEq

def ShopDb : Type := String → Option ShopRow

/-- The shop upsert of the `afterAuth` hook (`shopify.server.ts` lines
93-134): `create` sets the profile, the freshly encrypted token,
`isActive: true` and `installedAt`; `update` sets the profile, the freshly
encrypted token, `isActive: true` and clears `uninstalledAt` (reinstall). -/
def afterAuthUpsert (key : Nat) (db : ShopDb) (shopKey : String)
    (p : ShopProfile) (token : List Nat) (nonce now : Nat) : ShopDb :=
  fun k =>
    if k = shopKey then
      some (match db shopKey with
        | some row =>
            { row with
              name := p.name, email := p.email, domain := p.domain,
              province := p.province, country := p.country,
              address1 := p.address1, zip := p.zip, city := p.city,
              phone := p.phone, latitude := p.latitude,
              longitude := p.longitude, primaryLocale := p.primaryLocale,
              address2 := p.address2, planName := p.planName,
              accessTokenEncrypted := some (encryptToken key nonce token),
              isActive := true,
              uninstalledAt := none }
        | none =>
            { shop := shopKey,
              name := p.name, email := p.email, domain := p.domain,
              province := p.province, country := p.country,
              address1 := p.address1, zip := p.zip, city := p.city,
              phone := p.phone, latitude := p.latitude,
              longitude := p.longitude, primaryLocale := p.primaryLocale,
              address2 := p.address2, planName := p.planName,
              accessTokenEncrypted := some (encryptToken key nonce token),
              isActive := true,
              installedAt := some now })
    else db k

/-- The shop upsert inside `EncryptedPrismaSessionStorage.storeSession`
(`shopify.server.ts` lines 30-41): stores the encrypted token and
`isActive: true`; the `update` branch touches nothing else. -/
def storeShopUpsert (key : Nat) (db : ShopDb) (shopKey : String)
    (token : List Nat) (nonce : Nat) : ShopDb :=
  fun k =>
    if k = shopKey then
      some (match db shopKey with
        | some row =>
            { row with
              accessTokenEncrypted := some (encryptToken key nonce token),
              isActive := true }
        | none =>
            { shop := shopKey,
              accessTokenEncrypted := some (encryptToken key nonce token),
              isActive := true })
    else db k

/-- The `APP_UNINSTALLED` webhook callback (`shopify.server.ts` lines
146-166): `prisma.shop.update` sets `isActive: false` and `uninstalledAt`;
when the row is absent the update throws and the surrounding `catch` leaves
the state unchanged.  The `session.deleteMany` cleanup is commented out in
the source. -/
def appUninstalled (db : ShopDb) (shopKey : String) (now : Nat) : ShopDb :=
  match db shopKey with
  | some row =>
      fun k =>
        if k = shopKey then
          some { row with isActive := false, uninstalledAt := some now }
        else db k
  | none => db

/-- The shop-row half of the `SHOP_REDACT` webhook callback
(`shopify.server.ts` lines 194-200), under the schema of the init
migration (staged inside `DEPLOY.md`): `sessions_shop_fkey` gives
`sessions.shop` a foreign key to `shops.shop` with ON DELETE RESTRICT, so
`prisma.shop.delete` throws while any session row still references the
key (`blocked = true`), and it also throws when the row is absent; in
both cases the `catch` leaves the database unchanged.  Only an unblocked
delete on an existing row removes it. -/
def shopRedactDb (db : ShopDb) (shopKey : String) (blocked : Bool) : ShopDb :=
  match db shopKey, blocked with
  | some _, false => fun k => if k = shopKey then none else db k
  | some _, true => db
  | none, _ => db

/-! ## Encrypted session storage (`EncryptedPrismaSessionStorage`)

`storeSession` (lines 19-51): when the session carries an access token it is
encrypted before the underlying Prisma store, and the encrypted token is
additionally upserted into the shop row; `loadSession` (lines 53-65)
decrypts the token on the way out.  The two `encryptToken` calls in the
source are separate invocations, hence two independent nonces. -/

structure StoredSession where
  id : String
  shop : String
  accessToken : Option (List Nat) := none
deriving Repr, DecidableEq

def SessionDb : Type := String → Option StoredSession

/-- `EncryptedPrismaSessionStorage.storeSession`, happy path: encrypt the
token, store the session with the encrypted token, and (when a shop and an
original token are present) upsert the shop row with a second encryption of
the same token.  Returns the stored-session result together with the two
updated stores. -/
def storeSessionOp (key n1 n2 : Nat) (sdb : SessionDb) (db : ShopDb)
    (s : StoredSession) : Bool × SessionDb × ShopDb :=
  match s.accessToken with
  | some t =>
      let stored : StoredSession := { s with accessToken := some (encryptToken key n1 t) }
      let sdb' : SessionDb := fun i => if i = s.id then some stored else sdb i
      let db' : ShopDb :=
        if s.shop ≠ "" then storeShopUpsert key db s.shop t n2 else db
      (true, sdb', db')
  | none =>
      (true, fun i => if i = s.id then some s else sdb i, db)

/-- `EncryptedPrismaSessionStorage.loadSession`, with the `catch` that turns
a decryption failure into `undefined` (`none`). -/
def loadSessionOp (key : Nat) (sdb : SessionDb) (i : String) :
    Option StoredSession :=
  match sdb i with
  | none => none
  | some s =>
      match s.accessToken with
      | none => some s
      | some c =>
          match decryptToken key c with
          | some t => some { s with accessToken := some t }
          | none => none

/-! ## Full application state and the shop-redact callback -/

/-- A queued job (the queue backend `lib/queue.server.ts` is not among the
sources; the job's attributes follow spec §3). -/
structure QJob where
  id : Nat
  lane : String
  jobType : String
  payload : String
deriving Repr, DecidableEq

structure AppState where
  shops : ShopDb
  sessions : List StoredSession
  jobs : List QJob

/-- The `SHOP_REDACT` webhook callback (`shopify.server.ts` lines
191-201): `prisma.shop.delete` then
`prisma.session.deleteMany({ where: { shop } })`, in one `try`
block.  Under the init migration's `sessions_shop_fkey` foreign key
(`sessions.shop` references `shops.shop` ON DELETE RESTRICT), the shop
delete throws a foreign-key violation while any session row references
the key, and it throws when the row is absent; either way the `catch`
swallows the error before `deleteMany` runs, so nothing is removed.
Only when the row exists and no session references it does the delete
succeed, after which `deleteMany` removes the (then non-existent)
sessions for the key.  Jobs are never touched. -/
def shopRedact (st : AppState) (shopKey : String) : AppState :=
  match st.shops shopKey with
  | none => st
  | some _ =>
      if st.sessions.any (fun s => s.shop = shopKey) then st
      else
        { shops := shopRedactDb st.shops shopKey false,
          sessions := st.sessions.filter (fun s => s.shop ≠ shopKey),
          jobs := st.jobs }

/-! ## Dispatcher and delivery ledger

Modelled from the spec: the dispatcher lives in `lib/webhooks.server.ts`,
which is not among the sources (only its callers and the production
verification script reference it).  Spec §4.4: `accept` always persists a
DeliveryRecord and enqueues a webhook-lane Job if and only if
`signatureValid = true`. -/

structure DeliveryRecord where
  tenantKey : String
  topic : String
  headers : String
  rawBody : String
  query : String
  signatureValid : Bool
  jobId : Option Nat
deriving Repr, DecidableEq

structure LedgerState where
  records : List (Nat × DeliveryRecord)
  jobs : List QJob
  nextRecordId : Nat
  nextJobId : Nat
deriving Repr, DecidableEq

/-- Modelled from the spec: the Dispatcher's `accept` (spec §4.4,
`lib/webhooks.server.ts` not among the sources).  Always persists exactly
one DeliveryRecord; enqueues one webhook-lane Job, linked through the
record's `jobId`, exactly when the signature was valid. -/
def accept (st : LedgerState) (tenantKey topic headers rawBody query : String)
    (signatureValid : Bool) : Nat × LedgerState :=
  let rid := st.nextRecordId
  if signatureValid then
    let jid := st.nextJobId
    let record : DeliveryRecord :=
      { tenantKey, topic, headers, rawBody, query,
        signatureValid := true, jobId := some jid }
    (rid,
      { records := (rid, record) :: st.records,
        jobs := { id := jid, lane := "webhook", jobType := topic,
                  payload := rawBody } :: st.jobs,
        nextRecordId := rid + 1,
        nextJobId := jid + 1 })
  else
    let record : DeliveryRecord :=
      { tenantKey, topic, headers, rawBody, query,
        signatureValid := false, jobId := none }
    (rid, { st with records := (rid, record) :: st.records,
                    nextRecordId := rid + 1 })

/-! ## Worker health check (`scripts/worker.js` lines 23-45)

Each tick fetches waiting/active/failed of the webhook queue but only
waiting/active of the general queue, logs them, and warns when the webhook
failed count exceeds 10; it never exits. -/

structure QueueSnapshot where
  waiting : Nat
  active : Nat
  failed : Nat
deriving Repr, DecidableEq

/-- The object passed to `logger.info('Queue health check', {...})`:
`webhook: { waiting, active, failed }, general: { waiting, active }`. -/
structure HealthLog where
  webhookWaiting : Nat
  webhookActive : Nat
  webhookFailed : Nat
  generalWaiting : Nat
  generalActive : Nat
deriving Repr, DecidableEq

structure HealthTickResult where
  log : HealthLog
  warned : Bool
  exited : Bool
deriving Repr, DecidableEq

/-- One iteration of the worker's `setInterval` health check
(`scripts/worker.js` lines 23-45). -/
def healthTick (webhook general : QueueSnapshot) : HealthTickResult :=
  { log := { webhookWaiting := webhook.waiting,
             webhookActive := webhook.active,
             webhookFailed := webhook.failed,
             generalWaiting := general.waiting,
             generalActive := general.active },
    warned := decide (10 < webhook.failed),
    exited := false }

/-- The per-lane counts the health log emits, as (lane, kind, count). -/
def emittedCounts (r : HealthTickResult) : List (String × String × Nat) :=
  [("webhook", "waiting", r.log.webhookWaiting),
   ("webhook", "active", r.log.webhookActive),
   ("webhook", "failed", r.log.webhookFailed),
   ("general", "waiting", r.log.generalWaiting),
   ("general", "active", r.log.generalActive)]

/-- `r` emits a count for the given lane and kind. -/
def emitsCount (r : HealthTickResult) (lane kind : String) : Prop :=
  ∃ n, (lane, kind, n) ∈ emittedCounts r

instance (r : HealthTickResult) (lane kind : String) :
    Decidable (emitsCount r lane kind) := by
  unfold emitsCount
  refine decidable_of_iff
    ((emittedCounts r).any (fun e => e.1 = lane ∧ e.2.1 = kind)) ?_
  simp only [List.any_eq_true, decide_eq_true_eq]
  constructor
  · rintro ⟨⟨l, k, n⟩, hm, h1, h2⟩
    subst h1
    subst h2
    exact ⟨n, hm⟩
  · rintro ⟨n, hm⟩
    exact ⟨(lane, kind, n), hm, rfl, rfl⟩

/-! ## Worker graceful shutdown (`scripts/worker.js` lines 54-121)

A small-step machine over the worker process.  Events: a termination signal
(`SIGTERM`/`SIGINT`/`SIGUSR2`), an uncaught fault (`uncaughtException` /
`unhandledRejection` — both call `gracefulShutdown`), completion of one
active job, one iteration of the drain loop (one polled second, during
which the armed 30-second timeout may fire), a queue claiming one new job
(only possible while the lanes are not paused), and an exception thrown
inside the shutdown `try` block (its `catch` calls `process.exit(1)`). -/

inductive WEvent
  | signal
  | fault
  | complete
  | poll
  | claim
  | err
deriving Repr, DecidableEq

structure WState where
  shuttingDown : Bool
  paused : Bool
  active : Nat
  elapsed : Nat
  exited : Option Nat
deriving Repr, DecidableEq

/-- The running worker before any shutdown trigger, with `n` in-flight
jobs. -/
def initW (n : Nat) : WState :=
  { shuttingDown := false, paused := false, active := n,
    elapsed := 0, exited := none }

/-- One step of the worker shutdown machine, following
`gracefulShutdown` (`scripts/worker.js` lines 54-99) and the handler
registrations (lines 102-115):
* a trigger while `isShuttingDown` is already set force-exits with code 1
  (lines 55-58); a first trigger sets the flag and pauses both lanes;
* the drain loop exits 0 once no jobs are active, the 30-second timeout
  callback force-exits 1, otherwise the loop waits one second;
* a job can only be claimed while the lanes are not paused;
* an error inside the shutdown `try` exits 1 (lines 95-98). -/
def wstep (s : WState) (e : WEvent) : WState :=
  if s.exited.isSome then s
  else
    match e with
    | .signal | .fault =>
        if s.shuttingDown then { s with exited := some 1 }
        else { s with shuttingDown := true, paused := true, elapsed := 0 }
    | .complete => { s with active := s.active - 1 }
    | .claim => if s.paused then s else { s with active := s.active + 1 }
    | .err => if s.shuttingDown then { s with exited := some 1 } else s
    | .poll =>
        if s.shuttingDown then
          if 30 ≤ s.elapsed then { s with exited := some 1 }
          else if s.active = 0 then { s with exited := some 0 }
          else { s with elapsed := s.elapsed + 1 }
        else s

/-- Run the worker machine over a list of events. -/
def runW (s : WState) (evs : List WEvent) : WState :=
  evs.foldl wstep s

/-- Number of shutdown triggers (signals and faults) in a trace. -/
def triggersIn (evs : List WEvent) : Nat :=
  evs.countP (fun e => e = WEvent.signal ∨ e = WEvent.fault)

theorem wstep_exited (s : WState) (e : WEvent) (h : s.exited.isSome) :
    wstep s e = s := by
  simp [wstep, h]

theorem runW_exited (s : WState) (evs : List WEvent) (h : s.exited.isSome) :
    runW s evs = s := by
  induction evs with
  | nil => rfl
  | cons e evs ih => simp [runW, List.foldl, wstep_exited s e h] at ih ⊢; exact ih

/-! ## `storeSession` / `loadSession` as total exception-catchers

`EncryptedPrismaSessionStorage` (`shopify.server.ts` lines 18-66) wraps
every code path in `try { ... } catch { return false / undefined }`.  The
fallible collaborators (the crypto module, the Prisma base storage, and
the shop upsert) are modelled as `Except`-valued operations; the body
(`tryStoreSession` / `tryLoadSession`) propagates their failures, and the
wrapper converts any failure into `false` / `none`. -/

structure StoreDeps where
  encryptTok : List Nat → Except String (List Nat)
  superStore : StoredSession → Except String Bool
  shopUpsert : String → List Nat → Except String Unit
  superLoad : String → Except String (Option StoredSession)
  decryptTok : List Nat → Except String (List Nat)

/-- The `try` body of `storeSession`: encrypt the token, call the base
store with the encrypted session, and when a shop and the original token
are present, upsert the shop record with a second encryption. -/
def tryStoreSession (d : StoreDeps) (s : StoredSession) : Except String Bool :=
  match s.accessToken with
  | some t => do
      let c ← d.encryptTok t
      let r ← d.superStore { s with accessToken := some c }
      if s.shop ≠ "" then do
        let c2 ← d.encryptTok t
        let _ ← d.shopUpsert s.shop c2
        pure r
      else
        pure r
  | none => d.superStore s

/-- `storeSession` with its `catch`: any internal failure yields `false`. -/
def storeSessionCaught (d : StoreDeps) (s : StoredSession) : Bool :=
  match tryStoreSession d s with
  | .ok b => b
  | .error _ => false

/-- The `try` body of `loadSession`: load from the base storage and decrypt
the access token when present. -/
def tryLoadSession (d : StoreDeps) (i : String) :
    Except String (Option StoredSession) := do
  match ← d.superLoad i with
  | none => pure none
  | some s =>
      match s.accessToken with
      | none => pure (some s)
      | some c => do
          let t ← d.decryptTok c
          pure (some { s with accessToken := some t })

/-- `loadSession` with its `catch`: any internal failure yields
`undefined` (`none`). -/
def loadSessionCaught (d : StoreDeps) (i : String) : Option StoredSession :=
  match tryLoadSession d i with
  | .ok v => v
  | .error _ => none

/-! ## Reachable tenant-registry states

The operations of `shopify.server.ts` that write tenant state: the
`afterAuth` upsert, the `storeSession` shop upsert, the `APP_UNINSTALLED`
update, and the `SHOP_REDACT` delete, starting from an empty table. -/

inductive ReachableDb : ShopDb → Prop
  | init : ReachableDb (fun _ => none)
  | install (db : ShopDb) (shopKey : String) (p : ShopProfile)
      (token : List Nat) (key nonce now : Nat) :
      ReachableDb db → ReachableDb (afterAuthUpsert key db shopKey p token nonce now)
  | store (db : ShopDb) (shopKey : String) (token : List Nat) (key nonce : Nat) :
      ReachableDb db → ReachableDb (storeShopUpsert key db shopKey token nonce)
  | uninstall (db : ShopDb) (shopKey : String) (now : Nat) :
      ReachableDb db → ReachableDb (appUninstalled db shopKey now)
  | redact (db : ShopDb) (shopKey : String) (blocked : Bool) :
      ReachableDb db → ReachableDb (shopRedactDb db shopKey blocked)

/-! ## Helper lemmas for the shutdown machine -/

theorem runW_cons (s : WState) (e : WEvent) (evs : List WEvent) :
    runW s (e :: evs) = runW (wstep s e) evs := rfl

theorem triggersIn_cons_signal (evs : List WEvent) :
    triggersIn (WEvent.signal :: evs) = triggersIn evs + 1 := by
  simp [triggersIn, List.countP_cons]

theorem triggersIn_cons_fault (evs : List WEvent) :
    triggersIn (WEvent.fault :: evs) = triggersIn evs + 1 := by
  simp [triggersIn, List.countP_cons]

theorem triggersIn_cons_other (e : WEvent) (evs : List WEvent)
    (h1 : e ≠ WEvent.signal) (h2 : e ≠ WEvent.fault) :
    triggersIn (e :: evs) = triggersIn evs := by
  simp [triggersIn, List.countP_cons, h1, h2]

theorem triggersIn_append (p q : List WEvent) :
    triggersIn (p ++ q) = triggersIn p + triggersIn q := by
  simp [triggersIn, List.countP_append]

/-- The shutdown outcome the spec promises: exit code 0 only with all
active jobs drained, exit code 1 only once the 30-second timeout has
elapsed. -/
def drainExitOk (s : WState) : Prop :=
  ∀ c, s.exited = some c → (c = 0 ∧ s.active = 0) ∨ (c = 1 ∧ 30 ≤ s.elapsed)

/-- Exit codes as the worker actually produces them: 0 only with all
active jobs drained, 1 otherwise. -/
def exitCodeOk (s : WState) : Prop :=
  ∀ c, s.exited = some c → (c = 0 ∧ s.active = 0) ∨ c = 1

theorem runW_shutdown_helper (evs : List WEvent) :
    ∀ s : WState, s.exited = none →
    (s.shuttingDown = true → s.paused = true) →
    triggersIn evs + (if s.shuttingDown then 1 else 0) ≤ 1 →
    WEvent.err ∉ evs →
    drainExitOk (runW s evs)
    ∧ ((runW s evs).shuttingDown = true → (runW s evs).paused = true) := by
  induction evs with
  | nil =>
      intro s hex hsp _ _
      refine ⟨fun c hc => ?_, hsp⟩
      rw [runW] at hc
      simp [hex] at hc
  | cons e evs ih =>
      intro s hex hsp htr herr
      have herr' : WEvent.err ∉ evs := fun h => herr (List.mem_cons_of_mem _ h)
      have hee : e ≠ WEvent.err := fun h => herr (h ▸ List.mem_cons_self _ _)
      rw [runW_cons]
      cases e with
      | err => exact absurd rfl hee
      | signal =>
          rw [triggersIn_cons_signal] at htr
          cases hsd : s.shuttingDown with
          | true =>
              exfalso
              rw [hsd] at htr
              simp at htr
          | false =>
              have hst : wstep s WEvent.signal =
                  { s with shuttingDown := true, paused := true, elapsed := 0 } := by
                simp [wstep, hex, hsd]
              rw [hst]
              refine ih _ hex (fun _ => rfl) ?_ herr'
              rw [hsd] at htr
              simp at htr ⊢
              omega
      | fault =>
          rw [triggersIn_cons_fault] at htr
          cases hsd : s.shuttingDown with
          | true =>
              exfalso
              rw [hsd] at htr
              simp at htr
          | false =>
              have hst : wstep s WEvent.fault =
                  { s with shuttingDown := true, paused := true, elapsed := 0 } := by
                simp [wstep, hex, hsd]
              rw [hst]
              refine ih _ hex (fun _ => rfl) ?_ herr'
              rw [hsd] at htr
              simp at htr ⊢
              omega
      | complete =>
          rw [triggersIn_cons_other _ _ (by simp) (by simp)] at htr
          have hst : wstep s WEvent.complete = { s with active := s.active - 1 } := by
            simp [wstep, hex]
          rw [hst]
          exact ih _ hex hsp htr herr'
      | claim =>
          rw [triggersIn_cons_other _ _ (by simp) (by simp)] at htr
          cases hp : s.paused with
          | true =>
              have hst : wstep s WEvent.claim = s := by simp [wstep, hex, hp]
              rw [hst]
              exact ih _ hex hsp htr herr'
          | false =>
              have hst : wstep s WEvent.claim = { s with active := s.active + 1 } := by
                simp [wstep, hex, hp]
              rw [hst]
              exact ih _ hex hsp htr herr'
      | poll =>
          rw [triggersIn_cons_other _ _ (by simp) (by simp)] at htr
          cases hsd : s.shuttingDown with
          | false =>
              have hst : wstep s WEvent.poll = s := by simp [wstep, hex, hsd]
              rw [hst]
              exact ih _ hex hsp htr herr'
          | true =>
              by_cases ht : 30 ≤ s.elapsed
              · have hst : wstep s WEvent.poll = { s with exited := some 1 } := by
                  simp [wstep, hex, hsd, ht]
                rw [hst, runW_exited _ _ (by simp)]
                refine ⟨fun c hc => ?_, fun _ => hsp hsd⟩
                simp at hc
                exact Or.inr ⟨hc.symm, ht⟩
              · by_cases ha : s.active = 0
                · have hst : wstep s WEvent.poll = { s with exited := some 0 } := by
                    simp [wstep, hex, hsd, ht, ha]
                  rw [hst, runW_exited _ _ (by simp)]
                  refine ⟨fun c hc => ?_, fun _ => hsp hsd⟩
                  simp at hc
                  exact Or.inl ⟨hc.symm, ha⟩
                · have hst : wstep s WEvent.poll = { s with elapsed := s.elapsed + 1 } := by
                    simp [wstep, hex, hsd, ht, ha]
                  rw [hst]
                  exact ih _ hex hsp (by simpa [hsd] using htr) herr'

theorem wstep_exitCodeOk (s : WState) (e : WEvent) (h : exitCodeOk s) :
    exitCodeOk (wstep s e) := by
  by_cases hex : s.exited.isSome
  · rw [wstep_exited s e hex]; exact h
  · have hex' : s.exited = none := by
      cases hexv : s.exited with
      | none => rfl
      | some c => rw [hexv] at hex; simp at hex
    cases e with
    | signal =>
        cases hsd : s.shuttingDown with
        | true =>
            have hst : wstep s WEvent.signal = { s with exited := some 1 } := by
              simp [wstep, hex', hsd]
            rw [hst]; intro c hc; simp at hc; exact Or.inr hc.symm
        | false =>
            have hst : wstep s WEvent.signal =
                { s with shuttingDown := true, paused := true, elapsed := 0 } := by
              simp [wstep, hex', hsd]
            rw [hst]; intro c hc; simp [hex'] at hc
    | fault =>
        cases hsd : s.shuttingDown with
        | true =>
            have hst : wstep s WEvent.fault = { s with exited := some 1 } := by
              simp [wstep, hex', hsd]
            rw [hst]; intro c hc; simp at hc; exact Or.inr hc.symm
        | false =>
            have hst : wstep s WEvent.fault =
                { s with shuttingDown := true, paused := true, elapsed := 0 } := by
              simp [wstep, hex', hsd]
            rw [hst]; intro c hc; simp [hex'] at hc
    | complete =>
        have hst : wstep s WEvent.complete = { s with active := s.active - 1 } := by
          simp [wstep, hex']
        rw [hst]; intro c hc; simp [hex'] at hc
    | claim =>
        cases hp : s.paused with
        | true =>
            have hst : wstep s WEvent.claim = s := by simp [wstep, hex', hp]
            rw [hst]; exact h
        | false =>
            have hst : wstep s WEvent.claim = { s with active := s.active + 1 } := by
              simp [wstep, hex', hp]
            rw [hst]; intro c hc; simp [hex'] at hc
    | err =>
        cases hsd : s.shuttingDown with
        | true =>
            have hst : wstep s WEvent.err = { s with exited := some 1 } := by
              simp [wstep, hex', hsd]
            rw [hst]; intro c hc; simp at hc; exact Or.inr hc.symm
        | false =>
            have hst : wstep s WEvent.err = s := by simp [wstep, hex', hsd]
            rw [hst]; exact h
    | poll =>
        cases hsd : s.shuttingDown with
        | false =>
            have hst : wstep s WEvent.poll = s := by simp [wstep, hex', hsd]
            rw [hst]; exact h
        | true =>
            by_cases ht : 30 ≤ s.elapsed
            · have hst : wstep s WEvent.poll = { s with exited := some 1 } := by
                simp [wstep, hex', hsd, ht]
              rw [hst]; intro c hc; simp at hc; exact Or.inr hc.symm
            · by_cases ha : s.active = 0
              · have hst : wstep s WEvent.poll = { s with exited := some 0 } := by
                  simp [wstep, hex', hsd, ht, ha]
                rw [hst]; intro c hc; simp at hc
                exact Or.inl ⟨hc.symm, ha⟩
              · have hst : wstep s WEvent.poll = { s with elapsed := s.elapsed + 1 } := by
                  simp [wstep, hex', hsd, ht, ha]
                rw [hst]; intro c hc; simp [hex'] at hc

theorem runW_exitCode (evs : List WEvent) :
    ∀ s : WState, exitCodeOk s → exitCodeOk (runW s evs) := by
  induction evs with
  | nil => intro s h; exact h
  | cons e evs ih =>
      intro s h
      rw [runW_cons]
      exact ih _ (wstep_exitCodeOk s e h)

/-! ## Claim theorems -/

/-- Claim C1: every call to the Dispatcher's `accept` persists exactly one
DeliveryRecord regardless of `signatureValid`, and enqueues an associated
Job (linked through the new record's `jobId`) if and only if
`signatureValid = true`; no input with `signatureValid = false` ever
produces a Job. -/
theorem accept_one_record_job_iff_valid (st : LedgerState)
    (tenantKey topic headers rawBody query : String) (sv : Bool) :
    ((accept st tenantKey topic headers rawBody query sv).2.records.length
        = st.records.length + 1)
    ∧ (sv = true →
        (accept st tenantKey topic headers rawBody query sv).2.jobs.length
            = st.jobs.length + 1
        ∧ ∃ r, (accept st tenantKey topic headers rawBody query sv).2.records.head? = some r
            ∧ r.2.jobId = some st.nextJobId)
    ∧ (sv = false →
        (accept st tenantKey topic headers rawBody query sv).2.jobs = st.jobs
        ∧ ∃ r, (accept st tenantKey topic headers rawBody query sv).2.records.head? = some r
            ∧ r.2.jobId = none) := by
  cases sv <;> simp [accept]

/-- Witness for C1 at a concrete rejected event: a forged delivery leaves
the job queue empty and records no associated job. -/
theorem accept_one_record_witness :
    (accept ⟨[], [], 0, 0⟩ "a.example" "app/uninstalled" "h" "b" "q" false).2.jobs
      = ([] : List QJob) :=
  ((accept_one_record_job_iff_valid ⟨[], [], 0, 0⟩ "a.example" "app/uninstalled"
      "h" "b" "q" false).2.2 rfl).1

/-- Claim C2: install with credential `c1`, then uninstall, then reinstall
with credential `c2` leaves the tenant row active, with `uninstalledAt`
cleared, and with a stored encrypted credential that decrypts to `c2`. -/
theorem reinstall_restores_active (key : Nat) (db : ShopDb) (T : String)
    (p1 p2 : ShopProfile) (c1 c2 : List Nat) (n1 n2 now1 now2 nowU : Nat) :
    ((afterAuthUpsert key
        (appUninstalled (afterAuthUpsert key db T p1 c1 n1 now1) T nowU)
        T p2 c2 n2 now2 T).map ShopRow.isActive = some true)
    ∧ ((afterAuthUpsert key
        (appUninstalled (afterAuthUpsert key db T p1 c1 n1 now1) T nowU)
        T p2 c2 n2 now2 T).map ShopRow.uninstalledAt = some none)
    ∧ (((afterAuthUpsert key
        (appUninstalled (afterAuthUpsert key db T p1 c1 n1 now1) T nowU)
        T p2 c2 n2 now2 T).bind ShopRow.accessTokenEncrypted).bind
          (decryptToken key) = some c2) := by
  cases h : appUninstalled (afterAuthUpsert key db T p1 c1 n1 now1) T nowU T with
  | none => simp [afterAuthUpsert, h, decryptToken_encryptToken]
  | some row => simp [afterAuthUpsert, h, decryptToken_encryptToken]

/-- Claim C3: after `storeSession` on a session whose access token is the
plaintext `t`, `loadSession` on that session's id returns the session with
its access token equal to `t` (encrypt-then-decrypt is the identity); and
`decryptToken` only ever succeeds on a genuine encryption, returning the
unique plaintext whose encryption is the given blob — a tampered blob
fails rather than yielding a different plaintext. -/
theorem storeSession_loadSession_roundtrip (key n1 n2 : Nat)
    (sdb : SessionDb) (db : ShopDb) (s : StoredSession) (t : List Nat)
    (h : s.accessToken = some t) :
    loadSessionOp key (storeSessionOp key n1 n2 sdb db s).2.1 s.id = some s
    ∧ ∀ c pt, decryptToken key c = some pt →
        ∃ nonce, c = encryptToken key nonce pt := by
  constructor
  · obtain ⟨i, sh, a⟩ := s
    simp only at h
    subst h
    simp [storeSessionOp, loadSessionOp, decryptToken_encryptToken]
  · exact fun c pt hc => decryptToken_sound key c pt hc

/-- Witness for C3 at a concrete session: the stored-then-loaded session
carries the original plaintext token. -/
theorem storeSession_loadSession_witness :
    loadSessionOp 3
      (storeSessionOp 3 1 2 (fun _ => none) (fun _ => none)
        { id := "sid", shop := "a.example", accessToken := some [7, 8] }).2.1
      "sid"
    = some { id := "sid", shop := "a.example", accessToken := some [7, 8] } :=
  (storeSession_loadSession_roundtrip 3 1 2 (fun _ => none) (fun _ => none)
    { id := "sid", shop := "a.example", accessToken := some [7, 8] } [7, 8] rfl).1

/-- Claim C4: on an existing tenant row, the `APP_UNINSTALLED` callback
sets `isActive = false` and `uninstalledAt = now`, keeps the row, leaves
every other field of the row (credential and profile included) unchanged,
and leaves every other tenant's row untouched. -/
theorem markUninstalled_frame (db : ShopDb) (T : String) (now : Nat)
    (row : ShopRow) (h : db T = some row) :
    ∃ row', appUninstalled db T now T = some row'
      ∧ row'.isActive = false
      ∧ row'.uninstalledAt = some now
      ∧ row'.shop = row.shop
      ∧ row'.name = row.name
      ∧ row'.email = row.email
      ∧ row'.domain = row.domain
      ∧ row'.province = row.province
      ∧ row'.country = row.country
      ∧ row'.address1 = row.address1
      ∧ row'.zip = row.zip
      ∧ row'.city = row.city
      ∧ row'.phone = row.phone
      ∧ row'.latitude = row.latitude
      ∧ row'.longitude = row.longitude
      ∧ row'.primaryLocale = row.primaryLocale
      ∧ row'.address2 = row.address2
      ∧ row'.planName = row.planName
      ∧ row'.accessTokenEncrypted = row.accessTokenEncrypted
      ∧ row'.installedAt = row.installedAt
      ∧ ∀ k, k ≠ T → appUninstalled db T now k = db k := by
  refine ⟨{ row with isActive := false, uninstalledAt := some now },
    by simp [appUninstalled, h], rfl, rfl, rfl, rfl, rfl, rfl, rfl, rfl, rfl,
    rfl, rfl, rfl, rfl, rfl, rfl, rfl, rfl, rfl, rfl, fun k hk => ?_⟩
  simp [appUninstalled, h, hk]

def uninstallWitnessRow : ShopRow :=
  { shop := "a.example", isActive := true, accessTokenEncrypted := some [1, 2] }

def uninstallWitnessDb : ShopDb :=
  fun k => if k = "a.example" then some uninstallWitnessRow else none

/-- Witness for C4 at a concrete database: after the uninstall callback the
row is still present, inactive, and keeps its encrypted credential. -/
theorem markUninstalled_frame_witness :
    (appUninstalled uninstallWitnessDb "a.example" 5 "a.example").map
        ShopRow.isActive = some false
    ∧ (appUninstalled uninstallWitnessDb "a.example" 5 "a.example").map
        ShopRow.accessTokenEncrypted = some (some [1, 2]) := by
  obtain ⟨row', hrow, hact, hunin, -, -, -, -, -, -, -, -, -, -, -, -, -, -, -,
    hcred, -, -⟩ :=
    markUninstalled_frame uninstallWitnessDb "a.example" 5 uninstallWitnessRow rfl
  rw [hrow]
  simp [hact, hcred, uninstallWitnessRow]

def redactBugState : AppState :=
  { shops := fun k =>
      if k = "a.example" then
        some { shop := "a.example", isActive := true,
               accessTokenEncrypted := some [1] }
      else none,
    sessions := [{ id := "s1", shop := "a.example", accessToken := none }],
    jobs := [{ id := 0, lane := "webhook", jobType := "shop/redact",
               payload := "" }] }

/-- Claim C5 (code bug): at a state with an existing active tenant row for
`a.example` and one session referencing it — the state every installed
tenant is in, since OAuth stores a session — the shop-redact handler
removes nothing: not the tenant row, not the session, and (as the claim
does expect) no job.  `prisma.shop.delete` runs before
`session.deleteMany` inside one `try`, the init migration's
`sessions_shop_fkey` (`sessions.shop` references `shops.shop`
ON DELETE RESTRICT) makes the delete throw a foreign-key violation, and
the `catch` swallows it.  The claim, spec §4.3/§8, and the handler's own
success log ("Deleted all data for shop") require the tenant row and all
session state for the key to be removed. -/
theorem shopRedact_bug_nothing_deleted :
    (shopRedact redactBugState "a.example").shops "a.example"
        = some { shop := "a.example", isActive := true,
                 accessTokenEncrypted := some [1] }
    ∧ (shopRedact redactBugState "a.example").sessions
        = [{ id := "s1", shop := "a.example", accessToken := none }]
    ∧ (shopRedact redactBugState "a.example").jobs = redactBugState.jobs := by
  decide

/-- Claim C6: on every tenant database reachable through the state-writing
operations of `shopify.server.ts` (the `afterAuth` upsert, the
`storeSession` shop upsert, the uninstall update, and the shop-redact
delete), every row with `isActive = true` holds a non-null encrypted
credential. -/
theorem reachable_active_has_credential (db : ShopDb) (hdb : ReachableDb db)
    (T : String) (row : ShopRow) (h : db T = some row)
    (hact : row.isActive = true) : row.accessTokenEncrypted ≠ none := by
  induction hdb generalizing T row with
  | init => cases h
  | install db' shopKey p token key nonce now _ ih =>
      by_cases hT : T = shopKey
      · subst hT
        simp only [afterAuthUpsert, if_pos rfl] at h
        cases hdb' : db' T with
        | some r0 => rw [hdb'] at h; cases h; simp
        | none => rw [hdb'] at h; cases h; simp
      · simp only [afterAuthUpsert, if_neg hT] at h
        exact ih T row h hact
  | store db' shopKey token key nonce _ ih =>
      by_cases hT : T = shopKey
      · subst hT
        simp only [storeShopUpsert, if_pos rfl] at h
        cases hdb' : db' T with
        | some r0 => rw [hdb'] at h; cases h; simp
        | none => rw [hdb'] at h; cases h; simp
      · simp only [storeShopUpsert, if_neg hT] at h
        exact ih T row h hact
  | uninstall db' shopKey now _ ih =>
      simp only [appUninstalled] at h
      cases hdb' : db' shopKey with
      | none => simp only [hdb'] at h; exact ih T row h hact
      | some r0 =>
          simp only [hdb'] at h
          by_cases hT : T = shopKey
          · subst hT
            rw [if_pos rfl] at h
            cases h
            simp at hact
          · rw [if_neg hT] at h
            exact ih T row h hact
  | redact db' shopKey blocked _ ih =>
      cases blocked with
      | true =>
          cases hdb' : db' shopKey with
          | none => simp only [shopRedactDb, hdb'] at h; exact ih T row h hact
          | some r0 => simp only [shopRedactDb, hdb'] at h; exact ih T row h hact
      | false =>
          cases hdb' : db' shopKey with
          | none => simp only [shopRedactDb, hdb'] at h; exact ih T row h hact
          | some r0 =>
              simp only [shopRedactDb, hdb'] at h
              by_cases hT : T = shopKey
              · subst hT; rw [if_pos rfl] at h; cases h
              · rw [if_neg hT] at h
                exact ih T row h hact

def invariantWitnessDb : ShopDb :=
  afterAuthUpsert 3 (fun _ => none) "a.example" {} [7] 1 2

def invariantWitnessRow : ShopRow :=
  { shop := "a.example", accessTokenEncrypted := some (encryptToken 3 1 [7]),
    isActive := true, installedAt := some 2 }

/-- Witness for C6 at a concrete reachable database (one install from the
empty table): the active row's credential is non-null. -/
theorem reachable_active_has_credential_witness :
    invariantWitnessRow.accessTokenEncrypted ≠ none :=
  reachable_active_has_credential invariantWitnessDb
    (ReachableDb.install (fun _ => none) "a.example" {} [7] 3 1 2 ReachableDb.init)
    "a.example" invariantWitnessRow (by decide) rfl

/-- Counterexample to claim C7 as stated: the health check never emits a
failed-job count for the general lane — `scripts/worker.js` fetches only
`waiting` and `active` for `generalQueue`. -/
theorem healthTick_no_general_failed_cex :
    ¬ emitsCount (healthTick ⟨0, 0, 0⟩ ⟨0, 0, 5⟩) "general" "failed" := by
  decide

/-- Claim C7 (amended): each health-check iteration emits waiting, active
and failed counts for the webhook lane but only waiting and active counts
for the general lane; whenever the webhook lane's failed count exceeds the
threshold of 10 a warning is emitted; and the check never stops the worker,
whatever the counts. -/
theorem healthTick_spec (w g : QueueSnapshot) :
    emittedCounts (healthTick w g) =
      [("webhook", "waiting", w.waiting), ("webhook", "active", w.active),
       ("webhook", "failed", w.failed), ("general", "waiting", g.waiting),
       ("general", "active", g.active)]
    ∧ (10 < w.failed → (healthTick w g).warned = true)
    ∧ (healthTick w g).exited = false := by
  refine ⟨rfl, ?_, rfl⟩
  intro hw
  simp [healthTick, hw]

/-- Witness for C7 (amended) at concrete counts above the threshold: the
warning fires and the worker keeps running. -/
theorem healthTick_spec_witness :
    (healthTick ⟨0, 0, 11⟩ ⟨0, 0, 0⟩).warned = true :=
  (healthTick_spec ⟨0, 0, 11⟩ ⟨0, 0, 0⟩).2.1 (by decide)

/-- Counterexample to claim C8 as stated: with one job in flight, a second
termination signal during shutdown force-exits immediately
(`scripts/worker.js` lines 55-58) — the worker exits with an in-flight job
before the 30-second timeout has elapsed. -/
theorem shutdown_force_exit_cex :
    ¬ ((runW (initW 1) [WEvent.signal, WEvent.signal]).exited.isSome →
        (runW (initW 1) [WEvent.signal, WEvent.signal]).active = 0
        ∨ 30 ≤ (runW (initW 1) [WEvent.signal, WEvent.signal]).elapsed) := by
  decide

/-- Claim C8 (amended): for every shutdown trigger (termination signal or
uncaught fault alike), provided no further trigger arrives during shutdown
and no error is thrown inside the shutdown sequence, the worker pauses both
lanes as soon as shutdown starts (so no new jobs are claimed from then on),
then polls the active-job count, and exits only once either the count is
zero (code 0) or the 30-second timeout has elapsed (code 1); a repeated
trigger or a shutdown error instead force-exits immediately with code 1. -/
theorem gracefulShutdown_drains_before_exit (n : Nat) (evs : List WEvent)
    (h1 : triggersIn evs ≤ 1) (h2 : WEvent.err ∉ evs) :
    (∀ p q, evs = p ++ q →
      ((runW (initW n) p).shuttingDown = true → (runW (initW n) p).paused = true))
    ∧ ∀ c, (runW (initW n) evs).exited = some c →
        (c = 0 ∧ (runW (initW n) evs).active = 0)
        ∨ (c = 1 ∧ 30 ≤ (runW (initW n) evs).elapsed) := by
  constructor
  · intro p q hpq
    have hp1 : triggersIn p ≤ 1 := by
      rw [hpq, triggersIn_append] at h1
      omega
    have hp2 : WEvent.err ∉ p := fun hm => h2 (hpq ▸ List.mem_append_left q hm)
    exact (runW_shutdown_helper p (initW n) rfl (by simp [initW])
      (by simpa [initW] using hp1) hp2).2
  · exact (runW_shutdown_helper evs (initW n) rfl (by simp [initW])
      (by simpa [initW] using h1) h2).1

/-- Witness for C8 (amended): a single signal with two in-flight jobs that
then complete — the worker drains and exits with code 0. -/
theorem gracefulShutdown_drains_witness :
    (runW (initW 2) [WEvent.signal, WEvent.complete, WEvent.complete,
      WEvent.poll]).exited = some 0
    ∧ (runW (initW 2) [WEvent.signal, WEvent.complete, WEvent.complete,
        WEvent.poll]).active = 0 := by
  have hex : (runW (initW 2) [WEvent.signal, WEvent.complete, WEvent.complete,
      WEvent.poll]).exited = some 0 := by decide
  rcases (gracefulShutdown_drains_before_exit 2
      [WEvent.signal, WEvent.complete, WEvent.complete, WEvent.poll]
      (by decide) (by decide)).2 0 hex with ⟨-, ha⟩ | ⟨hc, -⟩
  · exact ⟨hex, ha⟩
  · exact absurd hc (by decide)

/-- Counterexample to claim C9 as stated: a shutdown triggered by an
uncaught fault that drains cleanly exits with code 0, not code 1 —
`uncaughtException`/`unhandledRejection` run the same `gracefulShutdown`,
which calls `process.exit(0)` on a clean drain. -/
theorem fault_clean_exit_zero_cex :
    (runW (initW 0) [WEvent.fault, WEvent.poll]).exited = some 0
    ∧ (runW (initW 0) [WEvent.fault, WEvent.poll]).exited ≠ some 1 := by
  decide

/-- Claim C9 (amended): whatever events occur, the worker exits with code 0
only when the graceful shutdown drained every active job, and with code 1
in every other exit (timeout, repeated trigger, or shutdown error); the
kind of trigger (signal or uncaught fault) does not determine the code. -/
theorem workerExitCode_spec (n : Nat) (evs : List WEvent) :
    ∀ c, (runW (initW n) evs).exited = some c →
      (c = 0 ∧ (runW (initW n) evs).active = 0) ∨ c = 1 := by
  have h0 : exitCodeOk (initW n) := by
    intro c hc
    simp [initW] at hc
  exact runW_exitCode evs (initW n) h0

/-- Witness for C9 (amended) at a concrete drained shutdown: the exit code
0 comes with zero active jobs. -/
theorem workerExitCode_witness :
    ((0 : Nat) = 0
      ∧ (runW (initW 1) [WEvent.signal, WEvent.complete, WEvent.poll]).active = 0)
    ∨ (0 : Nat) = 1 :=
  workerExitCode_spec 1 [WEvent.signal, WEvent.complete, WEvent.poll] 0 (by decide)

/-- Claim C10: `storeSession` never throws — any failure of an internal
operation (encryption, base session store, or shop upsert) yields `false`,
and a success passes the base store's result through; `loadSession` never
throws — any internal failure (load or decryption) yields `undefined`
(`none`), and a success passes the loaded value through. -/
theorem sessionStorage_catches_failures (d : StoreDeps) (s : StoredSession)
    (i : String) :
    (∀ e, tryStoreSession d s = .error e → storeSessionCaught d s = false)
    ∧ (∀ b, tryStoreSession d s = .ok b → storeSessionCaught d s = b)
    ∧ (∀ e, tryLoadSession d i = .error e → loadSessionCaught d i = none)
    ∧ (∀ v, tryLoadSession d i = .ok v → loadSessionCaught d i = v) := by
  refine ⟨?_, ?_, ?_, ?_⟩ <;> intro x hx <;>
    simp [storeSessionCaught, loadSessionCaught, hx]

def failingDeps : StoreDeps :=
  { encryptTok := fun _ => .error "encryption failed",
    superStore := fun _ => .ok true,
    shopUpsert := fun _ _ => .ok (),
    superLoad := fun _ => .error "store unavailable",
    decryptTok := fun _ => .error "bad ciphertext" }

/-- Witness for C10 at concrete failing collaborators: a failing encryption
makes `storeSession` return `false`, and a failing load makes `loadSession`
return `none`. -/
theorem sessionStorage_catches_witness :
    storeSessionCaught failingDeps
        { id := "sid", shop := "a.example", accessToken := some [1] } = false
    ∧ loadSessionCaught failingDeps "sid" = none :=
  ⟨(sessionStorage_catches_failures failingDeps
      { id := "sid", shop := "a.example", accessToken := some [1] } "sid").1
      "encryption failed" rfl,
   (sessionStorage_catches_failures failingDeps
      { id := "sid", shop := "a.example", accessToken := some [1] } "sid").2.2.1
      "store unavailable" rfl⟩
